import Mathlib

/-!
# Shallow embedding of the `funding_bot` trading-engine core

This file embeds, in Lean, the parts of the repository that the verified
statements below are about:

* `core/state.py`    — `Position`, `PendingOrder`, `StateConfig` and its
  mutation helpers (Python dicts are modelled as association lists with
  unique keys; `dict[k] = v` replaces in place or appends, `del dict[k]`
  removes the key).
* `core/execution_guard.py` — `ExecutionResult`, `_place_with_timeout`,
  `_handle_timeout`, `_parallel_execute`, `_emergency_unwind`,
  `_close_partial`, and the public entry points.  The exchange gateway is
  an external collaborator, so each gateway call is modelled by a
  behaviour datum (returned dict / timeout / raised exception) passed in
  as an argument; each dispatched order is recorded in an explicit
  dispatch trace.  `await`, the asyncio lock and the priority event are
  concurrency plumbing and are elided; the data/control flow of each
  function body is translated line by line.
* `core/margin_monitor.py` — `_calc_margin_ratio` and `on_price_update`.
* `services/funding_scanner.py` — `_validate_opportunity` and the
  per-coin body of `scan`.
* `main.py` — `reconcile_from_exchange` and the reconciliation gate of
  `run_bot` / `main`.

Python `float` arithmetic is embedded as exact rational arithmetic (`ℚ`);
`round(x, n)` is modelled by `roundTo n x` (round-half-up instead of
Python's round-half-to-even; no statement below sits on a tie).
-/

namespace FundingBot

/-! ## Python dict model: association lists with unique keys -/

/-- Keys of an association list (the keys of a Python dict). -/
def dictKeys {α : Type} (l : List (String × α)) : List String :=
  l.map Prod.fst

/-- `d[k] = v`: replace in place if the key is present, else append. -/
def dictInsert {α : Type} (k : String) (v : α) :
    List (String × α) → List (String × α)
  | [] => [(k, v)]
  | (k', v') :: rest =>
    if k' = k then (k, v) :: rest else (k', v') :: dictInsert k v rest

/-- `del d[k]` (guarded by `if k in d`): remove the key if present. -/
def dictRemove {α : Type} (k : String) :
    List (String × α) → List (String × α)
  | [] => []
  | (k', v') :: rest =>
    if k' = k then rest else (k', v') :: dictRemove k rest

/-- `d.get(k)`: look a key up. -/
def dictGet {α : Type} (k : String) : List (String × α) → Option α
  | [] => none
  | (k', v') :: rest => if k' = k then some v' else dictGet k rest

/-- Floor of a rational, computably (`Int.fdiv` is floored division). -/
def ratFloor (q : ℚ) : ℤ :=
  Int.fdiv q.num q.den

/-- Python `round(x, n)`, modelled as round-half-up at the `n`-th digit
(Python itself rounds ties to even; no statement below sits on a tie). -/
def roundTo (n : ℕ) (x : ℚ) : ℚ :=
  ((ratFloor (x * 10 ^ n + 1 / 2) : ℤ) : ℚ) / 10 ^ n

/-! ## `core/state.py` -/

/-- `core/state.py` `Position`: an open delta-neutral position. -/
structure Position where
  coin : String
  spot_size : ℚ
  perp_size : ℚ
  entry_price_spot : ℚ
  entry_price_perp : ℚ
  entry_time : ℚ := 0
deriving DecidableEq, Repr

/-- `Position.size_usd = spot_size * entry_price_spot`. -/
def Position.size_usd (p : Position) : ℚ :=
  p.spot_size * p.entry_price_spot

/-- `core/state.py` `PendingOrder`: an in-flight order. -/
structure PendingOrder where
  cloid : String
  coin : String
  side : String
  is_buy : Bool
  size : ℚ
  price : ℚ
  created_at : ℚ := 0
deriving DecidableEq, Repr

/-- `core/state.py` `StateConfig`: the in-memory state singleton. -/
structure StateConfig where
  positions : List (String × Position) := []
  pending_orders : List (String × PendingOrder) := []
  margin_ratio : ℚ := 1
  last_price_update : ℚ := 0
  available_buffer_usd : ℚ := 0
  total_exposure_usd : ℚ := 0
  spot_balance_usdc : ℚ := 0
  perp_margin_usdc : ℚ := 0
  last_funding_check : ℚ := 0
  current_funding_rate : ℚ := 0
deriving DecidableEq, Repr

/-- `StateConfig._update_exposure`: recompute `total_exposure_usd`. -/
def updateExposure (st : StateConfig) : StateConfig :=
  { st with total_exposure_usd :=
      (st.positions.map (fun kp => kp.2.size_usd)).sum }

/-- `StateConfig.get_position`. -/
def getPosition (st : StateConfig) (coin : String) : Option Position :=
  dictGet coin st.positions

/-- `StateConfig.add_position` (keyed by `position.coin`). -/
def addPosition (st : StateConfig) (p : Position) : StateConfig :=
  updateExposure { st with positions := dictInsert p.coin p st.positions }

/-- `StateConfig.remove_position` (no-op when the coin is absent). -/
def removePosition (st : StateConfig) (coin : String) : StateConfig :=
  if (dictGet coin st.positions).isSome then
    updateExposure { st with positions := dictRemove coin st.positions }
  else st

/-- `StateConfig.update_position_size` (no-op when the coin is absent). -/
def updatePositionSize (st : StateConfig) (coin : String)
    (new_spot_size new_perp_size : ℚ) : StateConfig :=
  match dictGet coin st.positions with
  | none => st
  | some p =>
    let p2 : Position :=
      { p with spot_size := new_spot_size, perp_size := new_perp_size }
    updateExposure { st with positions := dictInsert coin p2 st.positions }

/-- `StateConfig.add_pending_order` (keyed by `order.cloid`). -/
def addPendingOrder (st : StateConfig) (o : PendingOrder) : StateConfig :=
  { st with pending_orders := dictInsert o.cloid o st.pending_orders }

/-- `StateConfig.remove_pending_order`. -/
def removePendingOrder (st : StateConfig) (cloid : String) : StateConfig :=
  { st with pending_orders := dictRemove cloid st.pending_orders }

/-! ## `core/execution_guard.py`

The `HyperliquidClient` gateway is external; each call the guard makes is
modelled by a behaviour value supplied as an argument:

* `place_order` may return a result dict, exceed the `asyncio.wait_for`
  timeout, or raise;
* `query_order_status` may return a result dict or raise;
* a result dict carries a `status` string and possibly a `filled_size`
  key (`none` models a missing key, read through `.get(key, default)`).

Every gateway order submission is recorded as a `Dispatch` carrying the
order parameters and the cloids present in `state.pending_orders` at the
moment of the call. -/

/-- A dict returned by `place_order` / `query_order_status`. -/
structure OrderResult where
  status : String
  filled_size : Option ℚ := none
deriving DecidableEq, Repr

/-- Behaviour of one `query_order_status` call. -/
inductive QueryBehavior where
  | result (r : OrderResult)
  | raises
deriving DecidableEq, Repr

/-- Behaviour of one `place_order` call wrapped in `asyncio.wait_for`:
it returns, times out (after which `_handle_timeout` issues the given
`query_order_status` call), or raises. -/
inductive PlaceBehavior where
  | result (r : OrderResult)
  | timeout (q : QueryBehavior)
  | raises
deriving DecidableEq, Repr

/-- Behaviour of the raw `place_order` call made by `_emergency_unwind`
(no timeout wrapper, no exception handler around it). -/
inductive UnwindBehavior where
  | result (r : OrderResult)
  | raises
deriving DecidableEq, Repr

/-- `execution_guard.py` `ExecutionResult`. -/
structure ExecutionResult where
  success : Bool
  spot_cloid : String := ""
  perp_cloid : String := ""
  spot_filled : ℚ := 0
  perp_filled : ℚ := 0
  error : String := ""
deriving DecidableEq, Repr

/-- One order submitted to the gateway, together with the cloids that
were present in `state.pending_orders` when it was submitted. -/
structure Dispatch where
  coin : String
  side : String
  is_buy : Bool
  size : ℚ
  price : ℚ
  cloid : String
  pendingCloidsAtDispatch : List String
deriving DecidableEq, Repr

/-- `ExecutionGuard.order_timeout`-companion `slippage_buffer = 0.01`. -/
def slippage_buffer : ℚ := 1 / 100

/-- `ExecutionGuard._handle_timeout`: query the order's status; "filled"
recovers the reported fill size (`status.get("filled_size", 0)`),
"open" cancels the order and fails, anything else (including a raised
exception) fails with zero fill. -/
def handleTimeout (q : QueryBehavior) : Bool × ℚ :=
  match q with
  | .result r =>
    if r.status = "filled" then (true, r.filled_size.getD 0)
    else if r.status = "open" then (false, 0)   -- cancel_order, then fail
    else (false, 0)
  | .raises => (false, 0)

/-- `ExecutionGuard._place_with_timeout`: a returned dict succeeds iff
`status == "filled"` with `result.get("filled_size", size)`; a timeout
goes through `_handle_timeout`; a raised exception fails with zero fill
(the `except Exception` branch, which also covers an exception surfaced
by `asyncio.gather` in `_parallel_execute`). -/
def placeWithTimeout (b : PlaceBehavior) (size : ℚ) : Bool × ℚ :=
  match b with
  | .result r =>
    if r.status = "filled" then (true, r.filled_size.getD size)
    else (false, 0)
  | .timeout q => handleTimeout q
  | .raises => (false, 0)

/-- `ExecutionGuard._emergency_unwind`: sell a filled spot leg at
`round(price * (1 - 0.02), 5)`, or buy back a filled perp leg at
`round(price * (1 + 0.02), 5)`.  The `place_order` call is awaited with
no exception handler, so a raising gateway propagates (`Except.error`).
`pendingKeys` records the pending cloids at the moment of the call. -/
def emergencyUnwind (leg : String) (coin : String) (size price : ℚ)
    (b : UnwindBehavior) (uwCloid : String) (pendingKeys : List String) :
    Except Unit Unit × Dispatch :=
  let unwind_slippage : ℚ := 2 / 100
  let d : Dispatch :=
    if leg = "spot" then
      ⟨coin, "spot", false, size, roundTo 5 (price * (1 - unwind_slippage)),
        uwCloid, pendingKeys⟩
    else
      ⟨coin, "perp", true, size, roundTo 5 (price * (1 + unwind_slippage)),
        uwCloid, pendingKeys⟩
  match b with
  | .result _ => (.ok (), d)
  | .raises => (.error (), d)

instance {ε α : Type} [DecidableEq ε] [DecidableEq α] :
    DecidableEq (Except ε α) := fun x y =>
  match x, y with
  | .ok a, .ok b =>
    if h : a = b then .isTrue (by rw [h]) else .isFalse (by simp [h])
  | .error a, .error b =>
    if h : a = b then .isTrue (by rw [h]) else .isFalse (by simp [h])
  | .ok _, .error _ => .isFalse (by simp)
  | .error _, .ok _ => .isFalse (by simp)

/-- Outcome of `_parallel_execute` / `execute_delta_neutral`:
`result = .error ()` models an exception propagating out of the call
(after the `finally` block ran), `state` is the final `StateConfig`, and
`dispatches` lists every order submitted to the gateway, in order. -/
structure ExecOutcome where
  result : Except Unit ExecutionResult
  state : StateConfig
  dispatches : List Dispatch
deriving DecidableEq, Repr

/-- `ExecutionGuard._parallel_execute`.  The fresh `uuid4().hex` cloids
are passed in as `spot_cloid`, `perp_cloid`, `uw_cloid`; the two legs'
gateway behaviours as `spotB`, `perpB`; the unwind leg's as `uwB`. -/
def parallelExecute (st : StateConfig) (coin : String)
    (size_usd spot_price perp_price : ℚ)
    (spot_cloid perp_cloid uw_cloid : String)
    (spotB perpB : PlaceBehavior) (uwB : UnwindBehavior) : ExecOutcome :=
  let spot_size := roundTo 4 (size_usd / spot_price)
  let perp_size := roundTo 4 (size_usd / perp_price)
  let spot_limit := roundTo 5 (spot_price * (1 + slippage_buffer))
  let perp_limit := roundTo 5 (perp_price * (1 - slippage_buffer))
  -- track pending orders in state
  let st1 := addPendingOrder st ⟨spot_cloid, coin, "spot", true, spot_size, spot_limit, 0⟩
  let st2 := addPendingOrder st1 ⟨perp_cloid, coin, "perp", false, perp_size, perp_limit, 0⟩
  let pendingKeys := dictKeys st2.pending_orders
  -- parallel dispatch of both legs (asyncio.gather, return_exceptions=True)
  let spotD : Dispatch := ⟨coin, "spot", true, spot_size, spot_limit, spot_cloid, pendingKeys⟩
  let perpD : Dispatch := ⟨coin, "perp", false, perp_size, perp_limit, perp_cloid, pendingKeys⟩
  let sr := placeWithTimeout spotB spot_size
  let pr := placeWithTimeout perpB perp_size
  let spot_ok := sr.1
  let spot_filled := sr.2
  let perp_ok := pr.1
  let perp_filled := pr.2
  -- finally: clean up pending orders
  let cleanup := fun (s : StateConfig) =>
    removePendingOrder (removePendingOrder s spot_cloid) perp_cloid
  if spot_ok && perp_ok then
    -- Scenario 1: both succeeded — add to state
    let st3 := addPosition st2
      ⟨coin, spot_filled, perp_filled, spot_price, perp_price, 0⟩
    { result := .ok ⟨true, spot_cloid, perp_cloid, spot_filled, perp_filled, ""⟩,
      state := cleanup st3,
      dispatches := [spotD, perpD] }
  else if !spot_ok && !perp_ok then
    -- Scenario 2: both failed — no state change
    { result := .ok ⟨false, "", "", 0, 0, "Both legs failed"⟩,
      state := cleanup st2,
      dispatches := [spotD, perpD] }
  else
    -- Scenario 3: legged trade — unwind immediately
    let uw :=
      if spot_ok then
        emergencyUnwind "spot" coin spot_filled spot_price uwB uw_cloid pendingKeys
      else
        emergencyUnwind "perp" coin perp_filled perp_price uwB uw_cloid pendingKeys
    match uw.1 with
    | .ok _ =>
      { result := .ok ⟨false, "", "", 0, 0, "Legged trade - unwound"⟩,
        state := cleanup st2,
        dispatches := [spotD, perpD, uw.2] }
    | .error _ =>
      -- the exception from the unwind propagates, after the finally ran
      { result := .error (),
        state := cleanup st2,
        dispatches := [spotD, perpD, uw.2] }

/-- `ExecutionGuard.execute_delta_neutral`: the dry-run branch simulates
success without touching state or the gateway; otherwise (after the
priority wait and under the lock, elided here) `_parallel_execute`
runs. -/
def executeDeltaNeutral (dry_run : Bool) (st : StateConfig) (coin : String)
    (size_usd spot_price perp_price : ℚ)
    (spot_cloid perp_cloid uw_cloid : String)
    (spotB perpB : PlaceBehavior) (uwB : UnwindBehavior) : ExecOutcome :=
  if dry_run then
    { result := .ok ⟨true, "dry_run", "dry_run",
        size_usd / spot_price, size_usd / perp_price, "dry_run"⟩,
      state := st,
      dispatches := [] }
  else
    parallelExecute st coin size_usd spot_price perp_price
      spot_cloid perp_cloid uw_cloid spotB perpB uwB

/-- Outcome of `_close_partial` / `safety_rebalance` / `emergency_close`. -/
structure CloseOutcome where
  ok : Bool
  state : StateConfig
  dispatches : List Dispatch
deriving DecidableEq, Repr

/-- `ExecutionGuard._close_partial`.  The two close orders are priced
from the position's entry prices (`current_spot = pos.entry_price_spot`,
`current_perp = pos.entry_price_perp` — the source's `# TODO: Get live
price`), dispatched concurrently via `asyncio.gather` with
`return_exceptions=True`; the gathered results (`spotB`, `perpB`,
each a returned dict or a captured exception) are never inspected, the
state is updated and `True` is returned unconditionally. -/
def closeFraction (st : StateConfig) (coin : String) (percentage : ℚ)
    (c1 c2 : String) (spotB perpB : Except Unit OrderResult) : CloseOutcome :=
  match dictGet coin st.positions with
  | none => { ok := false, state := st, dispatches := [] }
  | some pos =>
    let spot_close := roundTo 4 (pos.spot_size * percentage)
    let perp_close := roundTo 4 (pos.perp_size * percentage)
    let current_spot := pos.entry_price_spot   -- TODO in source: live price
    let current_perp := pos.entry_price_perp
    let keys := dictKeys st.pending_orders
    let d1 : Dispatch :=
      ⟨coin, "spot", false, spot_close, current_spot * (98 / 100), c1, keys⟩
    let d2 : Dispatch :=
      ⟨coin, "perp", true, perp_close, current_perp * (102 / 100), c2, keys⟩
    -- gathered results spotB, perpB are ignored (return_exceptions=True)
    let st' :=
      if percentage ≥ 1 then removePosition st coin
      else updatePositionSize st coin
        (pos.spot_size - spot_close) (pos.perp_size - perp_close)
    { ok := true, state := st', dispatches := [d1, d2] }

/-- `ExecutionGuard.safety_rebalance`: clears the priority event, takes
the lock (both elided), runs `_close_partial`, restores the event. -/
def safetyRebalance (st : StateConfig) (coin : String) (percentage : ℚ)
    (c1 c2 : String) (spotB perpB : Except Unit OrderResult) : CloseOutcome :=
  closeFraction st coin percentage c1 c2 spotB perpB

/-- `ExecutionGuard.emergency_close`: `_close_partial(coin, 1.0)`. -/
def emergencyClose (st : StateConfig) (coin : String)
    (c1 c2 : String) (spotB perpB : Except Unit OrderResult) : CloseOutcome :=
  closeFraction st coin 1 c1 c2 spotB perpB

/-! ## `core/margin_monitor.py` -/

/-- The price object delivered by the websocket callback: the handler
probes it with `hasattr(prices, 'perp')` and reads
`prices.perp.best_bid`. -/
structure Prices where
  hasPerp : Bool
  perpBestBid : ℚ
deriving DecidableEq, Repr

/-- The monitor's own mutable attributes used by the tick handler. -/
structure MonitorState where
  danger_threshold : ℚ := 15 / 100
  critical_threshold : ℚ := 10 / 100
  last_heartbeat : ℚ := 0
  is_rebalancing : Bool := false
deriving DecidableEq, Repr

/-- `MarginMonitor._calc_margin_ratio`: 1.0 with no positions; else sum
`perp_size * price` over positions, valuing at the live perp best bid
when the prices object has one `> 0` and at the entry perp price
otherwise; then `equity / total` (1.0 when the total is 0 or negative,
per the source's `if tpv == 0` guard and `if tpv > 0 else 1.0`). -/
def calcMarginRatio (st : StateConfig) (prices : Prices) : ℚ :=
  if st.positions = [] then 1
  else
    let total_position_value :=
      (st.positions.map (fun kp =>
        let pos := kp.2
        let current_price :=
          if prices.hasPerp && decide (prices.perpBestBid > 0) then
            prices.perpBestBid
          else pos.entry_price_perp
        pos.perp_size * current_price)).sum
    if total_position_value = 0 then 1
    else
      let equity := st.perp_margin_usdc
      if total_position_value > 0 then equity / total_position_value else 1

/-- What `on_price_update` decides to do after its writes. -/
inductive RebalanceAction where
  | none
  | spawn (percentage : ℚ)
deriving DecidableEq, Repr

/-- Result of one tick of `MarginMonitor.on_price_update`. -/
structure TickOutcome where
  monitor : MonitorState
  state : StateConfig
  action : RebalanceAction
deriving DecidableEq, Repr

/-- `MarginMonitor.on_price_update`: stamp the heartbeat, compute and
write `margin_ratio` and `last_price_update`, then return early if a
rebalance is in flight or there are no positions, else spawn a 50%
(critical) or 25% (danger) rebalance (`_spawn_rebalance` sets
`_is_rebalancing` before creating the task).  `now` is the value of
`time.time()` during the call. -/
def onPriceUpdate (m : MonitorState) (st : StateConfig) (prices : Prices)
    (now : ℚ) : TickOutcome :=
  let m1 := { m with last_heartbeat := now }
  let margin := calcMarginRatio st prices
  let st1 := { st with margin_ratio := margin, last_price_update := now }
  if m1.is_rebalancing then ⟨m1, st1, .none⟩
  else if st1.positions = [] then ⟨m1, st1, .none⟩
  else if margin < m1.critical_threshold then
    ⟨{ m1 with is_rebalancing := true }, st1, .spawn (50 / 100)⟩
  else if margin < m1.danger_threshold then
    ⟨{ m1 with is_rebalancing := true }, st1, .spawn (25 / 100)⟩
  else ⟨m1, st1, .none⟩

/-! ## `services/funding_scanner.py` -/

/-- `FundingScanner.__init__` parameters (defaults as in the source;
`main.py` constructs `FundingScanner(client)`, i.e. all defaults). -/
structure FundingScanner where
  min_apr : ℚ := 20 / 100
  min_liquidity_usd : ℚ := 1000000
  max_breakeven_days : ℚ := 5
deriving DecidableEq, Repr

/-- Fee constants fixed in `FundingScanner.__init__`. -/
def fee_spot_taker : ℚ := 4 / 10000
/-- `self.fee_perp_taker = 0.0003`. -/
def fee_perp_taker : ℚ := 3 / 10000
/-- `self.slippage_estimate = 0.001`. -/
def slippage_estimate : ℚ := 1 / 1000
/-- `one_way = fee_spot_taker + fee_perp_taker + slippage_estimate * 2;
roundtrip_cost = one_way * 2`. -/
def roundtrip_cost : ℚ :=
  (fee_spot_taker + fee_perp_taker + slippage_estimate * 2) * 2

/-- The dict returned by `FundingScanner._validate_opportunity`. -/
structure Validation where
  viable : Bool
  days_to_breakeven : ℚ
  net_apy : ℚ
  reason : String
deriving DecidableEq, Repr

/-- `FundingScanner._validate_opportunity(hourly_rate, apr)` (`apr` is
accepted but unused in the source body).  The viability test runs on the
unrounded values; the returned dict carries them rounded to 1 digit. -/
def validateOpportunity (s : FundingScanner) (hourly_rate apr : ℚ) :
    Validation :=
  let capital_efficiency : ℚ := 40 / 100
  let daily_income_pct := hourly_rate * 24 * capital_efficiency
  if daily_income_pct ≤ 0 then
    ⟨false, 999, 0, "Zero income"⟩
  else
    let days_to_breakeven := roundtrip_cost / daily_income_pct
    let annual_income := daily_income_pct * 365
    let net_apy := (annual_income - roundtrip_cost) * 100
    let viable :=
      decide (days_to_breakeven < s.max_breakeven_days) &&
      decide (net_apy > 15)
    let reason :=
      if viable then ""
      else if days_to_breakeven ≥ s.max_breakeven_days then
        "Break-even too slow"
      else "Net APY too low"
    ⟨viable, roundTo 1 days_to_breakeven, roundTo 1 net_apy, reason⟩

/-- `FundingScanner.FundingOpportunity`. -/
structure FundingOpportunity where
  coin : String
  funding_rate_hourly : ℚ
  funding_apr : ℚ
  liquidity_usd : ℚ
  days_to_breakeven : ℚ
  net_apy : ℚ
  viable : Bool
  reason : String := ""
deriving DecidableEq, Repr

/-- What the `scan` loop body does with one candidate coin. -/
inductive ScanOutcome where
  | skipped
  | recorded (opp : FundingOpportunity)
deriving DecidableEq, Repr

/-- The body of `FundingScanner.scan`'s per-coin loop: skip non-positive
rates (`rate <= 0: continue`), skip `apr < min_apr`, record a non-viable
low-liquidity entry when `liquidity < min_liquidity_usd`, otherwise
record the break-even validation's verdict. -/
def scanCoin (s : FundingScanner) (coin : String) (rate liquidity : ℚ) :
    ScanOutcome :=
  if rate ≤ 0 then .skipped
  else
    let apr := rate * 24 * 365
    if apr < s.min_apr then .skipped
    else if liquidity < s.min_liquidity_usd then
      .recorded ⟨coin, rate, apr, liquidity, 999, 0, false, "Low liquidity"⟩
    else
      let v := validateOpportunity s rate apr
      .recorded ⟨coin, rate, apr, liquidity,
        v.days_to_breakeven, v.net_apy, v.viable, v.reason⟩

/-- The scanner instance `main.py` builds: `FundingScanner(client)`. -/
def mainScanner : FundingScanner := {}

/-- Whether a scan outcome is a viable opportunity. -/
def producesViable : ScanOutcome → Bool
  | .skipped => false
  | .recorded opp => opp.viable

/-! ## `main.py`: startup reconciliation and its gate -/

/-- One entry of the dict returned by `client.get_positions()`. -/
structure PosData where
  size : ℚ
  side : String
  entry_price : ℚ
deriving DecidableEq, Repr

/-- The dict returned by `client.get_balances()`. -/
structure Balances where
  spot_usdc : ℚ := 0
  perp_margin : ℚ := 0
deriving DecidableEq, Repr

/-- `main.reconcile_from_exchange`: reset state, fetch positions and
balances (each gateway call may raise: `.error ()`), rebuild a
`Position` for every short-side live position (exchange entry price used
for both legs), compute the buffer, and return `True`; any raised
exception is caught (`except Exception`) and turns into `False` with the
state as mutated so far.  No exception escapes and no
`ReconciliationError` exists in the source. -/
def reconcileFromExchange
    (positionsB : Except Unit (List (String × PosData)))
    (balancesB : Except Unit Balances) : Bool × StateConfig :=
  let st : StateConfig := {}   -- StateConfig.reset()
  match positionsB with
  | .error _ => (false, st)
  | .ok live =>
    match balancesB with
    | .error _ => (false, st)
    | .ok b =>
      let st := { st with spot_balance_usdc := b.spot_usdc,
                          perp_margin_usdc := b.perp_margin }
      let st := live.foldl (fun s kv =>
        if kv.2.side = "short" then
          addPosition s
            ⟨kv.1, kv.2.size, kv.2.size, kv.2.entry_price, kv.2.entry_price, 0⟩
        else s) st
      let buffer := max 0 (st.perp_margin_usdc - st.total_exposure_usd * (1 / 2))
      let st := { st with available_buffer_usd := buffer }
      (true, st)

/-- The reconciliation gate in `run_bot`. -/
inductive RunBotOutcome where
  | refusedToStart
  | started
deriving DecidableEq, Repr

/-- `run_bot` lines 243–246: `if not await reconcile_from_exchange(...):
return` — on a failed reconciliation the engine refuses to start and
`run_bot` returns normally. -/
def runBotStartup (reconcileOk : Bool) : RunBotOutcome :=
  if reconcileOk then .started else .refusedToStart

/-- The process exit code determined by the startup path of `main()`:
on `refusedToStart`, `run_bot` returns, `asyncio.run` completes, no
exception reaches `main`'s `except Exception` (which is the only
`sys.exit(1)` on this path), and `main` returns — the interpreter exits
with code 0.  On `started` the process keeps running (`none`). -/
def mainExitCode : RunBotOutcome → Option ℕ
  | .refusedToStart => some 0
  | .started => none

/-! ## Dictionary lemmas -/

theorem dictKeys_append {α : Type} (l m : List (String × α)) :
    dictKeys (l ++ m) = dictKeys l ++ dictKeys m := by
  simp [dictKeys]

theorem not_mem_dictKeys_cons {α : Type} {k : String} {hd : String × α}
    {tl : List (String × α)} (h : k ∉ dictKeys (hd :: tl)) :
    k ≠ hd.1 ∧ k ∉ dictKeys tl := by
  rw [show dictKeys (hd :: tl) = hd.1 :: dictKeys tl from rfl,
    List.mem_cons] at h
  push_neg at h
  exact h

theorem dictInsert_eq_append {α : Type} (k : String) (v : α) :
    ∀ {l : List (String × α)}, k ∉ dictKeys l →
      dictInsert k v l = l ++ [(k, v)] := by
  intro l
  induction l with
  | nil => intro _; rfl
  | cons hd tl ih =>
    intro h
    obtain ⟨h1, h2⟩ := not_mem_dictKeys_cons h
    simp only [dictInsert]
    rw [if_neg (fun e => h1 e.symm), ih h2]
    rfl

theorem dictRemove_append_cons {α : Type} (k : String) (v : α)
    (m : List (String × α)) :
    ∀ {l : List (String × α)}, k ∉ dictKeys l →
      dictRemove k (l ++ (k, v) :: m) = l ++ m := by
  intro l
  induction l with
  | nil => intro _; simp [dictRemove]
  | cons hd tl ih =>
    intro h
    obtain ⟨h1, h2⟩ := not_mem_dictKeys_cons h
    show dictRemove k (hd :: (tl ++ (k, v) :: m)) = hd :: (tl ++ m)
    cases hd with
    | mk k' v' =>
      simp only [dictRemove]
      rw [if_neg (fun e => h1 e.symm), ih h2]

theorem dictGet_insert_self {α : Type} (k : String) (v : α) :
    ∀ (l : List (String × α)), dictGet k (dictInsert k v l) = some v := by
  intro l
  induction l with
  | nil => simp [dictInsert, dictGet]
  | cons hd tl ih =>
    cases hd with
    | mk k' v' =>
      by_cases h : k' = k
      · simp [dictInsert, dictGet, h]
      · simp only [dictInsert]
        rw [if_neg h]
        simp only [dictGet]
        rw [if_neg h]
        exact ih

theorem dictGet_eq_none_of_not_mem {α : Type} (k : String) :
    ∀ {l : List (String × α)}, k ∉ dictKeys l → dictGet k l = none := by
  intro l
  induction l with
  | nil => intro _; rfl
  | cons hd tl ih =>
    intro h
    obtain ⟨h1, h2⟩ := not_mem_dictKeys_cons h
    cases hd with
    | mk k' v' =>
      simp only [dictGet]
      rw [if_neg (fun e => h1 e.symm)]
      exact ih h2

theorem dictGet_remove_self {α : Type} (k : String) :
    ∀ {l : List (String × α)}, (dictKeys l).Nodup →
      dictGet k (dictRemove k l) = none := by
  intro l
  induction l with
  | nil => intro _; rfl
  | cons hd tl ih =>
    intro h
    have hnd : hd.1 ∉ dictKeys tl ∧ (dictKeys tl).Nodup := by
      rw [show dictKeys (hd :: tl) = hd.1 :: dictKeys tl from rfl,
        List.nodup_cons] at h
      exact h
    cases hd with
    | mk k' v' =>
      by_cases e : k' = k
      · subst e
        simp only [dictRemove, if_pos rfl]
        exact dictGet_eq_none_of_not_mem k' hnd.1
      · simp only [dictRemove, dictGet]
        rw [if_neg e, dictGet]
        rw [if_neg e]
        exact ih hnd.2

theorem mem_dictKeys_insert_self {α : Type} (k : String) (v : α) :
    ∀ (l : List (String × α)), k ∈ dictKeys (dictInsert k v l) := by
  intro l
  induction l with
  | nil => simp [dictInsert, dictKeys]
  | cons hd tl ih =>
    cases hd with
    | mk k' v' =>
      by_cases h : k' = k
      · simp [dictInsert, dictKeys, h]
      · simp only [dictInsert]
        rw [if_neg h]
        exact List.mem_cons_of_mem k' ih

theorem mem_dictKeys_insert_mono {α : Type} (k a : String) (v : α) :
    ∀ {l : List (String × α)}, a ∈ dictKeys l →
      a ∈ dictKeys (dictInsert k v l) := by
  intro l
  induction l with
  | nil => intro h; simp [dictKeys] at h
  | cons hd tl ih =>
    intro h
    cases hd with
    | mk k' v' =>
      rw [show dictKeys ((k', v') :: tl) = k' :: dictKeys tl from rfl,
        List.mem_cons] at h
      by_cases e : k' = k
      · subst e
        rcases h with h | h
        · simp [dictInsert, dictKeys, h]
        · simp only [dictInsert, if_pos rfl]
          exact List.mem_cons_of_mem _ h
      · simp only [dictInsert]
        rw [if_neg e]
        rcases h with h | h
        · exact h ▸ List.mem_cons_self _ _
        · exact List.mem_cons_of_mem _ (ih h)

/-- The `finally` cleanup of `_parallel_execute` removes exactly the two
pending orders that the entry added, restoring the pending map. -/
theorem cleanup_restores_pending {α : Type} (l : List (String × α))
    (sc pc : String) (os op : α)
    (hs : sc ∉ dictKeys l) (hp : pc ∉ dictKeys l) (hne : sc ≠ pc) :
    dictRemove pc (dictRemove sc (dictInsert pc op (dictInsert sc os l))) = l := by
  rw [dictInsert_eq_append sc os hs]
  have hp' : pc ∉ dictKeys (l ++ [(sc, os)]) := by
    rw [dictKeys_append]
    intro hm
    rcases List.mem_append.mp hm with hm | hm
    · exact hp hm
    · simp [dictKeys] at hm
      exact hne hm.symm
  rw [dictInsert_eq_append pc op hp', List.append_assoc,
    show [(sc, os)] ++ [(pc, op)] = (sc, os) :: [(pc, op)] from rfl,
    dictRemove_append_cons sc os [(pc, op)] hs,
    show l ++ [(pc, op)] = l ++ (pc, op) :: [] from rfl,
    dictRemove_append_cons pc op [] hp, List.append_nil]

/-! ## Projection lemmas for `_parallel_execute` -/

/-- `_parallel_execute` changes `positions` exactly when both legs
report success, and then by inserting the Position built from the two
reported fill sizes. -/
theorem parallelExecute_positions (st : StateConfig) (coin : String)
    (size_usd spot_price perp_price : ℚ) (sc pc uc : String)
    (spotB perpB : PlaceBehavior) (uwB : UnwindBehavior) :
    (parallelExecute st coin size_usd spot_price perp_price
        sc pc uc spotB perpB uwB).state.positions
      = (if (placeWithTimeout spotB (roundTo 4 (size_usd / spot_price))).1
            && (placeWithTimeout perpB (roundTo 4 (size_usd / perp_price))).1
         then
           dictInsert coin
             ⟨coin, (placeWithTimeout spotB (roundTo 4 (size_usd / spot_price))).2,
               (placeWithTimeout perpB (roundTo 4 (size_usd / perp_price))).2,
               spot_price, perp_price, 0⟩ st.positions
         else st.positions) := by
  unfold parallelExecute
  by_cases h1 : (placeWithTimeout spotB (roundTo 4 (size_usd / spot_price))).1 <;>
    by_cases h2 : (placeWithTimeout perpB (roundTo 4 (size_usd / perp_price))).1 <;>
      simp only [h1, h2, Bool.and_self, Bool.and_false, Bool.false_and,
        Bool.true_and, Bool.and_true, Bool.not_true, Bool.not_false,
        if_true, if_false, Bool.false_eq_true, Bool.true_eq_false] <;>
      (try split) <;>
      simp [addPosition, addPendingOrder, removePendingOrder, updateExposure]

/-- The `finally` of `_parallel_execute` restores `pending_orders` to
its pre-call contents on every path, given fresh distinct cloids. -/
theorem parallelExecute_pending (st : StateConfig) (coin : String)
    (size_usd spot_price perp_price : ℚ) (sc pc uc : String)
    (spotB perpB : PlaceBehavior) (uwB : UnwindBehavior)
    (hs : sc ∉ dictKeys st.pending_orders)
    (hp : pc ∉ dictKeys st.pending_orders)
    (hne : sc ≠ pc) :
    (parallelExecute st coin size_usd spot_price perp_price
        sc pc uc spotB perpB uwB).state.pending_orders
      = st.pending_orders := by
  unfold parallelExecute
  by_cases h1 : (placeWithTimeout spotB (roundTo 4 (size_usd / spot_price))).1 <;>
    by_cases h2 : (placeWithTimeout perpB (roundTo 4 (size_usd / perp_price))).1 <;>
      simp only [h1, h2, Bool.and_self, Bool.and_false, Bool.false_and,
        Bool.true_and, Bool.and_true, Bool.not_true, Bool.not_false,
        if_true, if_false, Bool.false_eq_true, Bool.true_eq_false] <;>
      (try split) <;>
      simp [addPosition, addPendingOrder, removePendingOrder,
        updateExposure, cleanup_restores_pending _ _ _ _ _ hs hp hne]

/-- The first two orders `_parallel_execute` dispatches are the two
entry legs, and each was recorded in `pending_orders` (its cloid is
among the pending cloids) before dispatch. -/
theorem parallelExecute_entry_orders_recorded (st : StateConfig)
    (coin : String) (size_usd spot_price perp_price : ℚ) (sc pc uc : String)
    (spotB perpB : PlaceBehavior) (uwB : UnwindBehavior) :
    ∀ d ∈ (parallelExecute st coin size_usd spot_price perp_price
        sc pc uc spotB perpB uwB).dispatches.take 2,
      d.cloid ∈ d.pendingCloidsAtDispatch := by
  have hmem1 : sc ∈ dictKeys (dictInsert pc
      (⟨pc, coin, "perp", false, roundTo 4 (size_usd / perp_price),
        roundTo 5 (perp_price * (1 - slippage_buffer)), 0⟩ : PendingOrder)
      (dictInsert sc
        (⟨sc, coin, "spot", true, roundTo 4 (size_usd / spot_price),
          roundTo 5 (spot_price * (1 + slippage_buffer)), 0⟩ : PendingOrder)
        st.pending_orders)) :=
    mem_dictKeys_insert_mono pc sc _ (mem_dictKeys_insert_self sc _ _)
  have hmem2 : pc ∈ dictKeys (dictInsert pc
      (⟨pc, coin, "perp", false, roundTo 4 (size_usd / perp_price),
        roundTo 5 (perp_price * (1 - slippage_buffer)), 0⟩ : PendingOrder)
      (dictInsert sc
        (⟨sc, coin, "spot", true, roundTo 4 (size_usd / spot_price),
          roundTo 5 (spot_price * (1 + slippage_buffer)), 0⟩ : PendingOrder)
        st.pending_orders)) :=
    mem_dictKeys_insert_self pc _ _
  unfold parallelExecute
  by_cases h1 : (placeWithTimeout spotB (roundTo 4 (size_usd / spot_price))).1 <;>
    by_cases h2 : (placeWithTimeout perpB (roundTo 4 (size_usd / perp_price))).1 <;>
      simp only [h1, h2, Bool.and_self, Bool.and_false, Bool.false_and,
        Bool.true_and, Bool.and_true, Bool.not_true, Bool.not_false,
        if_true, if_false, Bool.false_eq_true, Bool.true_eq_false,
        addPendingOrder] <;>
      (try split) <;>
      (intro d hd
       simp [List.take] at hd
       rcases hd with hd | hd <;> subst hd <;>
        first | simpa using hmem1 | simpa using hmem2)

/-! ## Claim theorems -/

/-- **C1, counterexample.** A concrete run of `execute_delta_neutral`
(live mode, empty initial state): the spot leg fills for 10, the perp
leg times out and `query_order_status` answers
`{"status": "filled", "filled_size": 0}` — exactly what
`utils/hyperliquid_client.query_order_status` returns for any order no
longer in the open-order list.  `_handle_timeout` treats this as success
with fill 0, so the call returns success and a new `Position` exists
whose `perp_filled = 0`, refuting "a new Position exists with
`spot_filled > 0 ∧ perp_filled > 0`, or no new Position exists". -/
theorem c1_counterexample :
    (executeDeltaNeutral false ({} : StateConfig) "HYPE" 100 10 10 "s" "p" "u"
        (.result ⟨"filled", some 10⟩) (.timeout (.result ⟨"filled", some 0⟩))
        (.result ⟨"filled", some 0⟩)).state.positions
      = [("HYPE", ⟨"HYPE", 10, 0, 10, 10, 0⟩)]
    ∧ (executeDeltaNeutral false ({} : StateConfig) "HYPE" 100 10 10 "s" "p" "u"
        (.result ⟨"filled", some 10⟩) (.timeout (.result ⟨"filled", some 0⟩))
        (.result ⟨"filled", some 0⟩)).result
      = .ok ⟨true, "s", "p", 10, 0, ""⟩
    ∧ ({} : StateConfig).positions = []
    ∧ ¬ ((0 : ℚ) > 0) := by
  refine ⟨by decide, by decide, rfl, by norm_num⟩

/-- **C1 (amended).** After any `execute_delta_neutral` returns (or
raises), either `positions` is unchanged (no new Position), or both legs
reported success and the new Position's spot/perp sizes are exactly the
gateway-reported fill sizes — which may be `0`, in particular on the
path where a timed-out order is recovered via `query_order_status` and
treated as a success with the reported fill size. -/
theorem c1_new_position_iff_both_legs_reported_filled
    (dry_run : Bool) (st : StateConfig) (coin : String)
    (size_usd spot_price perp_price : ℚ) (sc pc uc : String)
    (spotB perpB : PlaceBehavior) (uwB : UnwindBehavior) :
    (executeDeltaNeutral dry_run st coin size_usd spot_price perp_price
        sc pc uc spotB perpB uwB).state.positions = st.positions
    ∨ (∃ sf pf : ℚ,
        placeWithTimeout spotB (roundTo 4 (size_usd / spot_price)) = (true, sf)
        ∧ placeWithTimeout perpB (roundTo 4 (size_usd / perp_price)) = (true, pf)
        ∧ (executeDeltaNeutral dry_run st coin size_usd spot_price perp_price
            sc pc uc spotB perpB uwB).state.positions
          = dictInsert coin ⟨coin, sf, pf, spot_price, perp_price, 0⟩
              st.positions) := by
  unfold executeDeltaNeutral
  by_cases hd : dry_run = true
  · simp [hd]
  · simp only [hd, if_false, Bool.false_eq_true]
    rcases hsp : placeWithTimeout spotB (roundTo 4 (size_usd / spot_price))
      with ⟨sok, sf⟩
    rcases hpp : placeWithTimeout perpB (roundTo 4 (size_usd / perp_price))
      with ⟨pok, pf⟩
    have hpos := parallelExecute_positions st coin size_usd spot_price
      perp_price sc pc uc spotB perpB uwB
    rw [hsp, hpp] at hpos
    cases sok <;> cases pok <;> simp at hpos
    · exact Or.inl hpos
    · exact Or.inl hpos
    · exact Or.inl hpos
    · exact Or.inr ⟨sf, pf, rfl, rfl, hpos⟩

/-- **C2, counterexample.** A concrete legged entry (spot filled, perp
failed) where the unwind's `place_order` raises: `_emergency_unwind`
awaits the gateway with no exception handler, so the exception
propagates out of `execute_delta_neutral` (the model's `.error ()`) and
no `ExecutionResult` with `success = false` is returned — refuting "the
error does not propagate past ExecutionGuard".  (Positions are still
untouched.) -/
theorem c2_counterexample :
    (executeDeltaNeutral false ({} : StateConfig) "HYPE" 100 10 10 "s" "p" "u"
        (.result ⟨"filled", some 10⟩) (.result ⟨"failed", none⟩)
        .raises).result = .error ()
    ∧ (executeDeltaNeutral false ({} : StateConfig) "HYPE" 100 10 10 "s" "p" "u"
        (.result ⟨"filled", some 10⟩) (.result ⟨"failed", none⟩)
        .raises).state.positions = [] := by
  exact ⟨by decide, by decide⟩

/-- **C2 (amended).** On every legged entry (exactly one leg reported
success), the emergency unwind of the filled leg is dispatched before
`execute_delta_neutral` finishes (it is the third and last gateway
order, selling the spot fill at 2% below the entry spot price, resp.
buying back the perp fill at 2% above the entry perp price); if the
unwind's gateway call returns a result — failure or not — the error does
not propagate (an `ExecutionResult` with `success = false` is returned),
but if the unwind call raises, the exception propagates out of
`execute_delta_neutral`; in every case `positions` is untouched. -/
theorem c2_legged_entry_unwind
    (st : StateConfig) (coin : String) (size_usd spot_price perp_price : ℚ)
    (sc pc uc : String) (spotB perpB : PlaceBehavior) (uwB : UnwindBehavior)
    (hlegged : (placeWithTimeout spotB (roundTo 4 (size_usd / spot_price))).1
        ≠ (placeWithTimeout perpB (roundTo 4 (size_usd / perp_price))).1) :
    (executeDeltaNeutral false st coin size_usd spot_price perp_price
        sc pc uc spotB perpB uwB).state.positions = st.positions
    ∧ (∃ d0 d1 d : Dispatch,
        (executeDeltaNeutral false st coin size_usd spot_price perp_price
            sc pc uc spotB perpB uwB).dispatches = [d0, d1, d]
        ∧ ((placeWithTimeout spotB (roundTo 4 (size_usd / spot_price))).1 = true →
            d.side = "spot" ∧ d.is_buy = false
            ∧ d.size = (placeWithTimeout spotB (roundTo 4 (size_usd / spot_price))).2
            ∧ d.price = roundTo 5 (spot_price * (1 - 2 / 100)))
        ∧ ((placeWithTimeout spotB (roundTo 4 (size_usd / spot_price))).1 = false →
            d.side = "perp" ∧ d.is_buy = true
            ∧ d.size = (placeWithTimeout perpB (roundTo 4 (size_usd / perp_price))).2
            ∧ d.price = roundTo 5 (perp_price * (1 + 2 / 100))))
    ∧ (∀ r : OrderResult, uwB = .result r →
        (executeDeltaNeutral false st coin size_usd spot_price perp_price
            sc pc uc spotB perpB uwB).result
          = .ok ⟨false, "", "", 0, 0, "Legged trade - unwound"⟩)
    ∧ (uwB = .raises →
        (executeDeltaNeutral false st coin size_usd spot_price perp_price
            sc pc uc spotB perpB uwB).result = .error ()) := by
  have hrfl : executeDeltaNeutral false st coin size_usd spot_price perp_price
      sc pc uc spotB perpB uwB
      = parallelExecute st coin size_usd spot_price perp_price
          sc pc uc spotB perpB uwB := rfl
  rw [hrfl]
  rcases hsp : placeWithTimeout spotB (roundTo 4 (size_usd / spot_price))
    with ⟨sok, sf⟩
  rcases hpp : placeWithTimeout perpB (roundTo 4 (size_usd / perp_price))
    with ⟨pok, pf⟩
  rw [hsp, hpp] at hlegged
  unfold parallelExecute
  dsimp only
  rw [hsp, hpp]
  cases sok <;> cases pok <;> simp only [] at hlegged <;>
    [skip; skip; skip; exact absurd rfl hlegged]
  · exact absurd rfl hlegged
  all_goals simp only [Bool.and_self, Bool.and_false, Bool.false_and,
    Bool.and_true, Bool.true_and, Bool.false_eq_true, Bool.true_eq_false,
    if_false, if_true, Bool.not_true, Bool.not_false]
  · -- spot failed, perp filled: unwind perp
    cases uwB with
    | result r =>
      refine ⟨by simp [emergencyUnwind, addPendingOrder, removePendingOrder],
        ⟨_, _, _, rfl, ?_, ?_⟩, ?_, ?_⟩
      · intro h; exact absurd h (by simp)
      · intro _; simp [emergencyUnwind]
      · intro r2 _; simp [emergencyUnwind]
      · intro h; exact absurd h (by simp)
    | raises =>
      refine ⟨by simp [emergencyUnwind, addPendingOrder, removePendingOrder],
        ⟨_, _, _, rfl, ?_, ?_⟩, ?_, ?_⟩
      · intro h; exact absurd h (by simp)
      · intro _; simp [emergencyUnwind]
      · intro r2 h2; exact absurd h2 (by simp)
      · intro _; simp [emergencyUnwind]
  · -- spot filled, perp failed: unwind spot
    cases uwB with
    | result r =>
      refine ⟨by simp [emergencyUnwind, addPendingOrder, removePendingOrder],
        ⟨_, _, _, rfl, ?_, ?_⟩, ?_, ?_⟩
      · intro _; simp [emergencyUnwind]
      · intro h; exact absurd h (by simp)
      · intro r2 _; simp [emergencyUnwind]
      · intro h; exact absurd h (by simp)
    | raises =>
      refine ⟨by simp [emergencyUnwind, addPendingOrder, removePendingOrder],
        ⟨_, _, _, rfl, ?_, ?_⟩, ?_, ?_⟩
      · intro _; simp [emergencyUnwind]
      · intro h; exact absurd h (by simp)
      · intro r2 h2; exact absurd h2 (by simp)
      · intro _; simp [emergencyUnwind]

/-- **C2 witness.** `c2_legged_entry_unwind` applied at a concrete
legged entry. -/
theorem c2_legged_entry_unwind_witness :
    ((placeWithTimeout (.result ⟨"filled", some 10⟩) (roundTo 4 (100 / 10))).1
        ≠ (placeWithTimeout (.result ⟨"failed", none⟩) (roundTo 4 (100 / 10))).1)
    ∧ (executeDeltaNeutral false ({} : StateConfig) "HYPE" 100 10 10 "s" "p" "u"
        (.result ⟨"filled", some 10⟩) (.result ⟨"failed", none⟩)
        (.result ⟨"failed", none⟩)).state.positions
      = ({} : StateConfig).positions :=
  ⟨by decide,
    (c2_legged_entry_unwind ({} : StateConfig) "HYPE" 100 10 10 "s" "p" "u"
      (.result ⟨"filled", some 10⟩) (.result ⟨"failed", none⟩)
      (.result ⟨"failed", none⟩) (by decide)).1⟩

/-- **C3 (code bug).** At the failing input — position "HYPE" with
`spot_size = 10`, `perp_size = 10`, `entry_price_spot = 10`,
`entry_price_perp = 10.05`, full close `p = 1` — `_close_partial`
dispatches the spot sell at `10 * 0.98 = 9.8` and the perp buy at
`10.05 * 1.02 = 10.251`: both limits are computed from the position's
**entry** prices (the source's `current_spot = pos.entry_price_spot
# TODO: Get live price`), not from the current spot bid / perp ask as
claimed — `_close_partial` consults no market price at all (its model
takes none), so whatever the live bid/ask are, these limits stand.  The
two orders are dispatched concurrently and the position is removed on
`p = 1`, as claimed. -/
theorem c3_close_prices_come_from_entry_prices :
    (closeFraction
        ({ positions := [("HYPE", ⟨"HYPE", 10, 10, 10, 201/20, 0⟩)] } : StateConfig)
        "HYPE" 1 "c1" "c2" (.ok ⟨"filled", some 10⟩)
        (.ok ⟨"filled", some 10⟩)).dispatches
      = [⟨"HYPE", "spot", false, 10, 49/5, "c1", []⟩,
         ⟨"HYPE", "perp", true, 10, 10251/1000, "c2", []⟩]
    ∧ (closeFraction
        ({ positions := [("HYPE", ⟨"HYPE", 10, 10, 10, 201/20, 0⟩)] } : StateConfig)
        "HYPE" 1 "c1" "c2" (.ok ⟨"filled", some 10⟩)
        (.ok ⟨"filled", some 10⟩)).state.positions = []
    ∧ (closeFraction
        ({ positions := [("HYPE", ⟨"HYPE", 10, 10, 10, 201/20, 0⟩)] } : StateConfig)
        "HYPE" 1 "c1" "c2" (.ok ⟨"filled", some 10⟩)
        (.ok ⟨"filled", some 10⟩)).ok = true := by
  exact ⟨by with_unfolding_all rfl, by with_unfolding_all rfl,
    by with_unfolding_all rfl⟩

/-- **C4, counterexample.** When a startup gateway call fails
(`get_positions` raises), `reconcile_from_exchange` returns `False` —
it does not raise a `ReconciliationError` (none exists in the source) —
`run_bot` refuses to start, and the process exits with code 0, not 1. -/
theorem c4_counterexample :
    (reconcileFromExchange (.error ()) (.ok {})).1 = false
    ∧ runBotStartup (reconcileFromExchange (.error ()) (.ok {})).1
      = .refusedToStart
    ∧ mainExitCode
        (runBotStartup (reconcileFromExchange (.error ()) (.ok {})).1)
      = some 0
    ∧ (some 0 : Option ℕ) ≠ some 1 := by
  exact ⟨rfl, rfl, rfl, by decide⟩

/-- **C4 (amended).** If any gateway call during startup reconciliation
fails, `reconcile_from_exchange` catches the exception and returns
`False`, the engine refuses to start trading, and the process exits with
code 0. -/
theorem c4_reconcile_failure_refuses_start_exit_zero
    (positionsB : Except Unit (List (String × PosData)))
    (balancesB : Except Unit Balances)
    (hfail : positionsB = .error () ∨ balancesB = .error ()) :
    (reconcileFromExchange positionsB balancesB).1 = false
    ∧ runBotStartup (reconcileFromExchange positionsB balancesB).1
      = .refusedToStart
    ∧ mainExitCode
        (runBotStartup (reconcileFromExchange positionsB balancesB).1)
      = some 0 := by
  rcases hfail with h | h
  · subst h
    exact ⟨rfl, rfl, rfl⟩
  · subst h
    cases positionsB with
    | error e => exact ⟨rfl, rfl, rfl⟩
    | ok live => exact ⟨rfl, rfl, rfl⟩

/-- **C4 witness.** `c4_reconcile_failure_refuses_start_exit_zero`
applied to a raising `get_positions` call. -/
theorem c4_reconcile_failure_witness :
    ((.error () : Except Unit (List (String × PosData))) = .error ()
      ∨ (.ok {} : Except Unit Balances) = .error ())
    ∧ (reconcileFromExchange (.error ())
        (.ok ({} : Balances))).1 = false :=
  ⟨Or.inl rfl,
    (c4_reconcile_failure_refuses_start_exit_zero (.error ()) (.ok {})
      (Or.inl rfl)).1⟩

/-- **C5, counterexample.** A second `safety_rebalance(coin, 1.0)` on
the same coin returns `False` (the position is gone, `_close_partial`
hits the "No position found" branch), not success as claimed.  The
first call returns `True`. -/
theorem c5_counterexample :
    (safetyRebalance
        ({ positions := [("HYPE", ⟨"HYPE", 10, 10, 10, 10, 0⟩)] } : StateConfig)
        "HYPE" 1 "a" "b" (.ok ⟨"filled", some 10⟩)
        (.ok ⟨"filled", some 10⟩)).ok = true
    ∧ (safetyRebalance
        (safetyRebalance
          ({ positions := [("HYPE", ⟨"HYPE", 10, 10, 10, 10, 0⟩)] } : StateConfig)
          "HYPE" 1 "a" "b" (.ok ⟨"filled", some 10⟩)
          (.ok ⟨"filled", some 10⟩)).state
        "HYPE" 1 "c" "d" (.ok ⟨"filled", some 10⟩)
        (.ok ⟨"filled", some 10⟩)).ok = false := by
  exact ⟨by decide, by decide⟩

/-- **C5 (amended).** `safety_rebalance(coin, 1.0)` followed by
`safety_rebalance(coin, 1.0)`: the second call returns `False` ("No
position found") and has no side effects on State — it leaves the state
exactly as the first call left it and dispatches no orders. -/
theorem c5_second_full_close_returns_false_no_side_effects
    (st : StateConfig) (coin : String) (pos : Position)
    (c1 c2 c3 c4 : String) (b1 b2 b3 b4 : Except Unit OrderResult)
    (hnodup : (dictKeys st.positions).Nodup)
    (hpos : getPosition st coin = some pos) :
    (safetyRebalance st coin 1 c1 c2 b1 b2).ok = true
    ∧ (safetyRebalance (safetyRebalance st coin 1 c1 c2 b1 b2).state
        coin 1 c3 c4 b3 b4).ok = false
    ∧ (safetyRebalance (safetyRebalance st coin 1 c1 c2 b1 b2).state
        coin 1 c3 c4 b3 b4).state
      = (safetyRebalance st coin 1 c1 c2 b1 b2).state
    ∧ (safetyRebalance (safetyRebalance st coin 1 c1 c2 b1 b2).state
        coin 1 c3 c4 b3 b4).dispatches = [] := by
  have hpos' : dictGet coin st.positions = some pos := hpos
  have hrm : dictGet coin (removePosition st coin).positions = none := by
    unfold removePosition
    rw [hpos']
    simp only [Option.isSome_some, if_true, updateExposure]
    exact dictGet_remove_self coin hnodup
  unfold safetyRebalance closeFraction
  rw [hpos']
  dsimp only
  rw [if_pos (by norm_num : (1 : ℚ) ≥ 1)]
  rw [hrm]
  exact ⟨rfl, rfl, rfl, rfl⟩

/-- **C5 witness.** `c5_second_full_close_returns_false_no_side_effects`
applied at a concrete one-position state. -/
theorem c5_second_full_close_witness :
    ((dictKeys
        ({ positions := [("HYPE", ⟨"HYPE", 10, 10, 10, 10, 0⟩)] } : StateConfig).positions).Nodup
      ∧ getPosition
          ({ positions := [("HYPE", ⟨"HYPE", 10, 10, 10, 10, 0⟩)] } : StateConfig)
          "HYPE" = some ⟨"HYPE", 10, 10, 10, 10, 0⟩)
    ∧ (safetyRebalance
        (safetyRebalance
          ({ positions := [("HYPE", ⟨"HYPE", 10, 10, 10, 10, 0⟩)] } : StateConfig)
          "HYPE" 1 "a" "b" (.ok ⟨"filled", some 10⟩)
          (.ok ⟨"filled", some 10⟩)).state
        "HYPE" 1 "c" "d" (.ok ⟨"filled", some 10⟩)
        (.ok ⟨"filled", some 10⟩)).dispatches = [] :=
  ⟨⟨by decide, by decide⟩,
    (c5_second_full_close_returns_false_no_side_effects
      ({ positions := [("HYPE", ⟨"HYPE", 10, 10, 10, 10, 0⟩)] } : StateConfig)
      "HYPE" ⟨"HYPE", 10, 10, 10, 10, 0⟩ "a" "b" "c" "d"
      (.ok ⟨"filled", some 10⟩) (.ok ⟨"filled", some 10⟩)
      (.ok ⟨"filled", some 10⟩) (.ok ⟨"filled", some 10⟩)
      (by decide) (by decide)).2.2.2⟩

/-- **C6.** `safety_rebalance` and `emergency_close` both run
`_close_partial`, which returns `True` and removes (p ≥ 1) or shrinks
(p < 1) the position **unconditionally** — the two close-leg gateway
behaviours `spotB`, `perpB` (a returned result or a captured exception)
are universally quantified here and never constrained — and returns
`False` exactly when no position exists, leaving the state untouched. -/
theorem c6_close_returns_true_and_mutates_unconditionally
    (st : StateConfig) (coin : String) (percentage : ℚ)
    (c1 c2 : String) (spotB perpB : Except Unit OrderResult)
    (hnodup : (dictKeys st.positions).Nodup) :
    (safetyRebalance st coin percentage c1 c2 spotB perpB
        = closeFraction st coin percentage c1 c2 spotB perpB)
    ∧ (emergencyClose st coin c1 c2 spotB perpB
        = closeFraction st coin 1 c1 c2 spotB perpB)
    ∧ ((closeFraction st coin percentage c1 c2 spotB perpB).ok
        = (getPosition st coin).isSome)
    ∧ (getPosition st coin = none →
        closeFraction st coin percentage c1 c2 spotB perpB = ⟨false, st, []⟩)
    ∧ (∀ pos : Position, getPosition st coin = some pos →
        (1 ≤ percentage →
          getPosition (closeFraction st coin percentage c1 c2 spotB perpB).state
            coin = none)
        ∧ (¬ 1 ≤ percentage →
          getPosition (closeFraction st coin percentage c1 c2 spotB perpB).state
            coin
            = some { pos with
                spot_size := pos.spot_size - roundTo 4 (pos.spot_size * percentage),
                perp_size := pos.perp_size - roundTo 4 (pos.perp_size * percentage) })) := by
  refine ⟨rfl, rfl, ?_, ?_, ?_⟩
  · cases h : dictGet coin st.positions with
    | none => simp [closeFraction, getPosition, h]
    | some p0 => simp [closeFraction, getPosition, h]
  · intro h
    have h' : dictGet coin st.positions = none := h
    simp [closeFraction, h']
  · intro pos hp
    have hp' : dictGet coin st.positions = some pos := hp
    constructor
    · intro hge
      unfold closeFraction
      rw [hp']
      dsimp only
      rw [if_pos (by exact_mod_cast hge : percentage ≥ 1)]
      show dictGet coin (removePosition st coin).positions = none
      unfold removePosition
      rw [hp']
      simp only [Option.isSome_some, if_true, updateExposure]
      exact dictGet_remove_self coin hnodup
    · intro hlt
      unfold closeFraction
      rw [hp']
      dsimp only
      rw [if_neg (by exact_mod_cast hlt : ¬ percentage ≥ 1)]
      show dictGet coin (updatePositionSize st coin _ _).positions = some _
      unfold updatePositionSize
      rw [hp']
      simp only [updateExposure]
      exact dictGet_insert_self coin _ st.positions

/-- **C6 witness.** `c6_close_returns_true_and_mutates_unconditionally`
applied at a concrete one-position state with a 25% close. -/
theorem c6_close_witness :
    (dictKeys
        ({ positions := [("HYPE", ⟨"HYPE", 10, 10, 10, 10, 0⟩)] } : StateConfig).positions).Nodup
    ∧ (closeFraction
        ({ positions := [("HYPE", ⟨"HYPE", 10, 10, 10, 10, 0⟩)] } : StateConfig)
        "HYPE" (25/100) "c1" "c2" (.error ()) (.error ())).ok
      = (getPosition
          ({ positions := [("HYPE", ⟨"HYPE", 10, 10, 10, 10, 0⟩)] } : StateConfig)
          "HYPE").isSome :=
  ⟨by decide,
    (c6_close_returns_true_and_mutates_unconditionally
      ({ positions := [("HYPE", ⟨"HYPE", 10, 10, 10, 10, 0⟩)] } : StateConfig)
      "HYPE" (25/100) "c1" "c2" (.error ()) (.error ())
      (by decide)).2.2.1⟩

/-- **C7, counterexample.** A concrete `safety_rebalance` close on a
one-position state with no pending orders: two close orders go out to
the gateway (two in-flight orders) while `pending_orders` is empty at
the moment of each dispatch and stays empty — the close orders are never
recorded as `PendingOrder`s, refuting "every order is recorded as a
PendingOrder before it is dispatched" and "`|pending_orders|` equals the
number of in-flight orders". -/
theorem c7_counterexample :
    (closeFraction
        ({ positions := [("HYPE", ⟨"HYPE", 10, 10, 10, 10, 0⟩)] } : StateConfig)
        "HYPE" (1/2) "c1" "c2" (.ok ⟨"filled", some 5⟩)
        (.ok ⟨"filled", some 5⟩)).dispatches
      = [⟨"HYPE", "spot", false, 5, 49/5, "c1", []⟩,
         ⟨"HYPE", "perp", true, 5, 51/5, "c2", []⟩]
    ∧ (closeFraction
        ({ positions := [("HYPE", ⟨"HYPE", 10, 10, 10, 10, 0⟩)] } : StateConfig)
        "HYPE" (1/2) "c1" "c2" (.ok ⟨"filled", some 5⟩)
        (.ok ⟨"filled", some 5⟩)).state.pending_orders = []
    ∧ ({ positions := [("HYPE", ⟨"HYPE", 10, 10, 10, 10, 0⟩)] } : StateConfig).pending_orders
      = [] := by
  exact ⟨by with_unfolding_all rfl, by with_unfolding_all rfl, rfl⟩

/-- **C7 (amended).** Entry orders are recorded as `PendingOrder`s
before dispatch (each entry dispatch's cloid is among the pending cloids
at dispatch time), and entry restores `pending_orders` to its pre-call
contents on every path, including when the unwind raises; close
operations, however, dispatch their orders without recording them (the
pending cloids at dispatch time are the untouched pre-call ones, which
do not contain the close orders' fresh cloids) and leave
`pending_orders` unchanged. -/
theorem c7_pending_lifecycle
    (st : StateConfig) (coin : String) (size_usd spot_price perp_price pct : ℚ)
    (sc pc uc c1 c2 : String) (spotB perpB : PlaceBehavior)
    (uwB : UnwindBehavior) (b1 b2 : Except Unit OrderResult)
    (hs : sc ∉ dictKeys st.pending_orders)
    (hp : pc ∉ dictKeys st.pending_orders)
    (hne : sc ≠ pc)
    (hc1 : c1 ∉ dictKeys st.pending_orders)
    (hc2 : c2 ∉ dictKeys st.pending_orders) :
    (parallelExecute st coin size_usd spot_price perp_price
        sc pc uc spotB perpB uwB).state.pending_orders = st.pending_orders
    ∧ (∀ d ∈ (parallelExecute st coin size_usd spot_price perp_price
        sc pc uc spotB perpB uwB).dispatches.take 2,
        d.cloid ∈ d.pendingCloidsAtDispatch)
    ∧ (closeFraction st coin pct c1 c2 b1 b2).state.pending_orders
      = st.pending_orders
    ∧ (∀ d ∈ (closeFraction st coin pct c1 c2 b1 b2).dispatches,
        d.cloid ∉ d.pendingCloidsAtDispatch) := by
  refine ⟨parallelExecute_pending st coin size_usd spot_price perp_price
      sc pc uc spotB perpB uwB hs hp hne,
    parallelExecute_entry_orders_recorded st coin size_usd spot_price
      perp_price sc pc uc spotB perpB uwB, ?_, ?_⟩
  · unfold closeFraction
    cases h : dictGet coin st.positions with
    | none => rfl
    | some pos =>
      dsimp only
      split
      · unfold removePosition
        split
        · simp [updateExposure]
        · rfl
      · unfold updatePositionSize
        cases dictGet coin st.positions with
        | none => rfl
        | some p0 => simp [updateExposure]
  · unfold closeFraction
    cases h : dictGet coin st.positions with
    | none =>
      intro d hd
      simp at hd
    | some pos =>
      intro d hd
      simp at hd
      rcases hd with hd | hd <;> subst hd
      · simpa using hc1
      · simpa using hc2

/-- **C7 witness.** `c7_pending_lifecycle` applied at a concrete state
with fresh cloids. -/
theorem c7_pending_lifecycle_witness :
    ("s" ∉ dictKeys ({} : StateConfig).pending_orders
      ∧ "p" ∉ dictKeys ({} : StateConfig).pending_orders
      ∧ "s" ≠ "p"
      ∧ "c1" ∉ dictKeys ({} : StateConfig).pending_orders
      ∧ "c2" ∉ dictKeys ({} : StateConfig).pending_orders)
    ∧ (parallelExecute ({} : StateConfig) "HYPE" 100 10 10 "s" "p" "u"
        (.result ⟨"filled", some 10⟩) (.result ⟨"failed", none⟩)
        .raises).state.pending_orders
      = ({} : StateConfig).pending_orders :=
  ⟨⟨by decide, by decide, by decide, by decide, by decide⟩,
    (c7_pending_lifecycle ({} : StateConfig) "HYPE" 100 10 10 (1/2)
      "s" "p" "u" "c1" "c2"
      (.result ⟨"filled", some 10⟩) (.result ⟨"failed", none⟩)
      .raises (.ok ⟨"filled", some 5⟩) (.ok ⟨"filled", some 5⟩)
      (by decide) (by decide) (by decide) (by decide) (by decide)).1⟩

/-- **C8.** Every tick handler run writes the computed margin ratio and
the tick's timestamp to State before returning — the writes happen on
every path, before the early returns for an in-flight rebalance or an
empty position book — and the computed ratio is 1.0 whenever State holds
no positions. -/
theorem c8_tick_writes_margin_and_heartbeat
    (m : MonitorState) (st : StateConfig) (prices : Prices) (now : ℚ) :
    (onPriceUpdate m st prices now).state.margin_ratio
      = calcMarginRatio st prices
    ∧ (onPriceUpdate m st prices now).state.last_price_update = now
    ∧ (st.positions = [] → calcMarginRatio st prices = 1) := by
  have hstate : (onPriceUpdate m st prices now).state
      = { st with margin_ratio := calcMarginRatio st prices,
                  last_price_update := now } := by
    unfold onPriceUpdate
    dsimp only
    split
    · rfl
    · split
      · rfl
      · split
        · rfl
        · split
          · rfl
          · rfl
  refine ⟨by rw [hstate], by rw [hstate], ?_⟩
  intro h
  unfold calcMarginRatio
  rw [if_pos h]

/-- **C8 witness.** `c8_tick_writes_margin_and_heartbeat` on an empty
state: the written ratio is 1 and the heartbeat is the tick's time. -/
theorem c8_tick_writes_witness :
    (onPriceUpdate {} ({} : StateConfig) ⟨false, 0⟩ 42).state.margin_ratio = 1
    ∧ (onPriceUpdate {} ({} : StateConfig) ⟨false, 0⟩ 42).state.last_price_update
      = 42 := by
  have h := c8_tick_writes_margin_and_heartbeat {} ({} : StateConfig)
    ⟨false, 0⟩ 42
  exact ⟨h.1.trans (h.2.2 rfl), h.2.1⟩

/-- **C9.** With the scanner `main.py` constructs (all defaults,
`min_apr = 0.20`), a candidate whose computed `apr = rate × 24 × 365` is
exactly `min_apr` is not skipped by the strict `apr < min_apr` gate, but
never yields a viable opportunity for any liquidity: either it is
recorded non-viable for low liquidity, or break-even validation rejects
it (at `apr = 0.20` the break-even is 24.6 days ≥ 5 and net APY 7.5 ≤
15). -/
theorem c9_at_threshold_apr_not_viable
    (coin : String) (rate liquidity : ℚ)
    (happr : rate * 24 * 365 = mainScanner.min_apr) :
    producesViable (scanCoin mainScanner coin rate liquidity) = false := by
  have hrate : rate = 1 / 43800 := by
    have h5 : mainScanner.min_apr = 20 / 100 := rfl
    rw [h5] at happr
    linarith
  subst hrate
  unfold scanCoin
  rw [if_neg (by norm_num : ¬ ((1 : ℚ) / 43800 ≤ 0))]
  dsimp only
  rw [show mainScanner.min_apr = 20 / 100 from rfl,
    if_neg (show ¬ ((1 : ℚ) / 43800 * 24 * 365 < (20 / 100 : ℚ)) by norm_num)]
  by_cases hl : liquidity < mainScanner.min_liquidity_usd
  · rw [if_pos hl]
    rfl
  · rw [if_neg hl]
    show (validateOpportunity mainScanner (1 / 43800)
        ((1 : ℚ) / 43800 * 24 * 365)).viable = false
    with_unfolding_all rfl

/-- **C9 witness.** `c9_at_threshold_apr_not_viable` at the exact
threshold rate `0.20 / (24 × 365) = 1/43800` and ample liquidity. -/
theorem c9_at_threshold_witness :
    ((1 : ℚ) / 43800 * 24 * 365 = mainScanner.min_apr)
    ∧ producesViable (scanCoin mainScanner "HYPE" (1 / 43800) 10000000)
      = false :=
  ⟨show (1 : ℚ) / 43800 * 24 * 365 = 20 / 100 by norm_num,
    c9_at_threshold_apr_not_viable "HYPE" (1 / 43800) 10000000
      (show (1 : ℚ) / 43800 * 24 * 365 = 20 / 100 by norm_num)⟩

/-- **C10.** For every positive hourly rate that reaches break-even
validation, `_validate_opportunity` computes
`round_trip_cost = 2 × (0.0004 + 0.0003 + 2 × 0.001)`,
`daily_income = rate × 24 × 0.40`,
`days_to_breakeven = round_trip_cost / daily_income`,
`net_apy_pct = (daily_income × 365 − round_trip_cost) × 100`
(the returned record carries the last two rounded to one digit), and
marks the opportunity viable iff
`days_to_breakeven < max_breakeven_days ∧ net_apy_pct > 15`. -/
theorem c10_breakeven_validation_formulas
    (s : FundingScanner) (hourly_rate apr : ℚ) (hr : 0 < hourly_rate) :
    roundtrip_cost = 2 * (4 / 10000 + 3 / 10000 + 2 * (1 / 1000))
    ∧ (validateOpportunity s hourly_rate apr).days_to_breakeven
      = roundTo 1 (roundtrip_cost / (hourly_rate * 24 * (40 / 100)))
    ∧ (validateOpportunity s hourly_rate apr).net_apy
      = roundTo 1 ((hourly_rate * 24 * (40 / 100) * 365 - roundtrip_cost) * 100)
    ∧ ((validateOpportunity s hourly_rate apr).viable = true
        ↔ (roundtrip_cost / (hourly_rate * 24 * (40 / 100)) < s.max_breakeven_days
            ∧ (hourly_rate * 24 * (40 / 100) * 365 - roundtrip_cost) * 100 > 15)) := by
  have hp : ¬ (hourly_rate * 24 * (40 / 100) ≤ 0) := by
    simp only [not_le]
    positivity
  refine ⟨by norm_num [roundtrip_cost, fee_spot_taker, fee_perp_taker,
    slippage_estimate], ?_, ?_, ?_⟩ <;>
    (unfold validateOpportunity
     rw [if_neg hp]
     try simp [Bool.and_eq_true, decide_eq_true_eq])

/-- **C10 witness.** `c10_breakeven_validation_formulas` at the default
scanner and a positive rate. -/
theorem c10_breakeven_validation_witness :
    (0 : ℚ) < 1 / 1000
    ∧ roundtrip_cost = 2 * (4 / 10000 + 3 / 10000 + 2 * (1 / 1000)) :=
  ⟨by norm_num,
    (c10_breakeven_validation_formulas mainScanner (1 / 1000) 0
      (by norm_num)).1⟩

end FundingBot
